import Mathlib

/-!
Verification of the WhatsApp tutoring backend (`app/ai.py`,
`app/tools/registry.py`, `app/tools/generate_exercise.py`,
`app/database/db.py`) against its natural-language specification.

The Python code is shallowly embedded: pure fragments become Lean functions,
the database and the LLM provider become explicit oracles/parameters, and the
side effects of one turn (message persistence, LLM calls, tool executions)
become an explicit event trace.  Machine integers are `Int`/`Nat` (no
overflow is relevant here), fallible code returns `Except`.

`app/database/models.py` and `app/tools/search_knowledge.py` are imported by
the sources but are not part of the repository snapshot; the few definitions
taken from them (the `Message`/`User` records, `Message.to_api_format`, the
chunk type) are modelled from the specification and marked as such.
-/

/-! ### Python values and truthiness

`execute_tool_call` receives the LLM's JSON-decoded argument object
(`tool_args: dict`) and validates entries with Python truthiness
(`not x`) and `isinstance` checks.  `PyVal` models the JSON values such a
dict can hold; `isInt` follows Python, where `bool` is a subtype of `int`.
Nested JSON containers are not modelled: the executor's checks treat them
exactly like any other non-`str`/non-`int` value. -/

inductive PyVal where
  | vstr : String → PyVal
  | vint : Int → PyVal
  | vbool : Bool → PyVal
  | vnone : PyVal
deriving DecidableEq

/-- Python truthiness (`bool(x)`): `""`, `0`, `False` and `None` are falsy,
everything else modelled here is truthy. -/
def PyVal.truthy : PyVal → Bool
  | .vstr s => !(s == "")
  | .vint i => !(i == 0)
  | .vbool b => b
  | .vnone => false

/-- `isinstance(x, str)`. -/
def PyVal.isStr : PyVal → Bool
  | .vstr _ => true
  | _ => false

/-- `isinstance(x, int)`: in Python `bool` is a subclass of `int`. -/
def PyVal.isInt : PyVal → Bool
  | .vint _ => true
  | .vbool _ => true
  | _ => false

/-- The string payload of a value known to be a `str`. -/
def PyVal.asStr : PyVal → String
  | .vstr s => s
  | _ => ""

/-- The integer payload of a value known to be an `int` (`True == 1`,
`False == 0` in Python). -/
def PyVal.asInt : PyVal → Int
  | .vint i => i
  | .vbool b => if b then 1 else 0
  | _ => 0

/-- The argument object of one tool call: an insertion-ordered string-keyed
dict of JSON values. -/
abbrev Args := List (String × PyVal)

/-- `tool_args.get(key)`: the first binding of `key`, or Python `None` when
the key is absent. -/
def pyGet (args : Args) (key : String) : PyVal :=
  match args.find? (fun kv => kv.1 == key) with
  | some kv => kv.2
  | none => .vnone

/-! ### Tool bodies as oracles

The executor dispatches to `search_knowledge` (whose source file is not in
the repository snapshot) and `generate_exercise`.  For the executor's own
contract both bodies are oracles returning `Except String String`:
`.ok s` is a normal return of `s`, `.error e` is a raised exception whose
`str(e)` is `e`. -/

structure ToolEnv where
  search_knowledge : String → Int → Except String String
  generate_exercise : String → Int → String → Except String String

/-- `execute_tool_call` (app/ai.py lines 146-177).  The whole body is wrapped
in `try/except Exception`, so the embedding is a total function into
`String`: validation failures, unknown tool names and exceptions raised by a
tool body all come back as observation strings. -/
def execute_tool_call (env : ToolEnv) (tool_name : String) (tool_args : Args) :
    String :=
  if tool_name == "search_knowledge" then
    let search_phrase := pyGet tool_args "search_phrase"
    let class_id := pyGet tool_args "class_id"
    if !search_phrase.truthy || !search_phrase.isStr then
      "Error: search_phrase is required and must be a string"
    else if !class_id.truthy || !class_id.isInt then
      "Error: class_id is required and must be an integer"
    else
      match env.search_knowledge search_phrase.asStr class_id.asInt with
      | .ok r => r
      | .error e => "Error executing search_knowledge: " ++ e
  else if tool_name == "generate_exercise" then
    let query := pyGet tool_args "query"
    let class_id := pyGet tool_args "class_id"
    let subject := pyGet tool_args "subject"
    if !query.truthy || !query.isStr then
      "Error: query is required and must be a string"
    else if !class_id.truthy || !class_id.isInt then
      "Error: class_id is required and must be an integer"
    else if !subject.truthy || !subject.isStr then
      "Error: subject is required and must be a string"
    else
      match env.generate_exercise query.asStr class_id.asInt subject.asStr with
      | .ok r => r
      | .error e => "Error executing generate_exercise: " ++ e
  else
    "Unknown tool: " ++ tool_name

example :
    execute_tool_call ⟨fun _ _ => .ok "x", fun _ _ _ => .ok "y"⟩ "foo" [] =
      "Unknown tool: foo" := by decide

example :
    execute_tool_call ⟨fun _ _ => .ok "x", fun _ _ _ => .ok "y"⟩
      "search_knowledge" [("search_phrase", .vint 3), ("class_id", .vint 1)] =
      "Error: search_phrase is required and must be a string" := by decide

/-! ### The data model

`app/database/models.py` is imported by the sources but is not part of the
repository snapshot, so the records below are modelled from the
specification (section 3) and from how `app/ai.py` constructs and reads
them.  Creation timestamps are represented positionally: a list of messages
is always kept in chronological order. -/

/-- Modelled from the spec: the message role enum of models.py
(`system`/`user`/`assistant`/`tool`). -/
inductive MessageRole where
  | system
  | user
  | assistant
  | tool
deriving DecidableEq

/-- The role as it appears in an API message dict. -/
def MessageRole.toStr : MessageRole → String
  | .system => "system"
  | .user => "user"
  | .assistant => "assistant"
  | .tool => "tool"

/-- The `function` part of the tool-call wire shape
`{id, type: "function", function: {name, arguments}}` (spec section 6). -/
structure ToolCallFunction where
  name : String
  arguments : String
deriving DecidableEq

/-- One serialized tool-call request as persisted on an assistant message
and replayed to the LLM. -/
structure ToolCallData where
  id : String
  type : String
  function : ToolCallFunction
deriving DecidableEq

/-- Modelled from the spec: the persisted `Message` record of models.py —
role, optional text content, optional serialized tool calls, and the
tool-call back-reference fields used when the role is `tool` (spec
section 3). -/
structure Message where
  user_id : Option Int := none
  role : MessageRole
  content : Option String := none
  tool_calls : Option (List ToolCallData) := none
  tool_call_id : Option String := none
  tool_name : Option String := none
deriving DecidableEq

/-- One role-tagged message dict of the LLM API request
(spec section 6: the request is an ordered list of these). -/
structure ApiDict where
  role : String
  content : Option String := none
  tool_calls : Option (List ToolCallData) := none
  tool_call_id : Option String := none
  name : Option String := none
deriving DecidableEq

/-- Modelled from the spec: `Message.to_api_format` of models.py renders a
persisted message in the wire shape of spec section 6 (role string, content,
tool-call list, and the `tool_call_id`/`name` back-references). -/
def Message.to_api_format (m : Message) : ApiDict :=
  { role := m.role.toStr
    content := m.content
    tool_calls := m.tool_calls
    tool_call_id := m.tool_call_id
    name := m.tool_name }

/-- Modelled from the spec: the `User` record of models.py restricted to the
fields the embedded code reads — the database id (`user.id`, optional), the
display name, the rendered class summary used by the system prompt, and the
class-name-to-id mapping used by the tool registry. -/
structure User where
  id : Option Int := none
  name : String
  formatted_class_info : String
  class_name_to_id_map : List (String × Int)
deriving DecidableEq

/-- Modelled from the spec: the chunk type enum of models.py
(`text`/`exercise`, spec section 3). -/
inductive ChunkType where
  | text
  | exercise
deriving DecidableEq

/-- How a chunk type is rendered inside the f-string headings of
`_format_context`.  Modelled from the spec: ChunkType lives in models.py. -/
def ChunkType.toStr : ChunkType → String
  | .text => "text"
  | .exercise => "exercise"

/-- Modelled from the spec: a unit of indexed textbook content — type,
resource id, optional section title/index, free-text content (spec
section 3; the embedding vector is never read by the embedded code). -/
structure Chunk where
  chunk_type : ChunkType
  resource_id : Int
  top_level_section_title : Option String := none
  top_level_section_index : Option Int := none
  content : String
deriving DecidableEq

/-- Modelled from the spec: a textbook/document (spec section 3). -/
structure Resource where
  id : Int
  name : String
deriving DecidableEq

/-! ### Message history (app/database/db.py lines 194-216)

`get_user_message_history` runs a query for the most recent `limit`
messages of the user in descending `created_at` order (spec section 6), and
then post-processes the rows.  The query itself is external; it is modelled
by taking the user's full chronological history and reversing/truncating it.
The embedded part is the source's own logic: `if not messages: return None`
and the final `list(reversed(messages))`. -/

def get_user_message_history (stored : List Message) (limit : Nat) :
    Option (List Message) :=
  let messages := stored.reverse.take limit
  if messages.isEmpty then
    none
  else
    some messages.reverse

example : get_user_message_history [] 10 = none := by decide

/-! ### The system prompt (app/ai.py lines 20-73)

The `system_prompt` template, split at its two `str.format` placeholders
`{user_name}` and `{class_info}`. -/

def system_prompt_part1 : String := "<role>
You are Twiga, a WhatsApp bot developed by the Tanzania AI Community for secondary school teachers in Tanzania. You assist teachers by chatting with them and providing them with accurate, curriculum-aligned education materials. You understand that you are communicating on the WhatsApp messaging platform and that you have access to the textbooks for the course the teacher is teaching. You will often need to use the course materials to ensure that your responses are contextually grounded. You are friendly and helpful, always aiming to provide clear explanations whether you're providing educational content or just chatting.
</role>

<context>
The curriculum is the Tanzanian National Curriculum, developed by the Tanzanian Institute of Education (TIE). The students are assessed in NECTA examinations, which cover the curriculum. TIE are also the writers of the textbooks you use. Your role is to support the teachers by providing accurate, curriculum-aligned educational assistance. You are talking to "

def system_prompt_part2 : String := " who teaches "

def system_prompt_part3 : String := ".
</context>

<response_format>

1. **Respond using WhatsApp markdown formatting**

To italicize your text for important information, place an underscore on both sides of the text: _text_
To bold your text for section headers, place an asterisk on both sides of the text: *text*
To strikethrough your text (eg. to clarify a previous mistake), place a tilde on both sides of the text: ~text~
To monospace your text, place three backticks on both sides of the text: `text`
To add a bulleted list to your text, place a hyphen and a space before each word or sentence:
- text1
- text2
To add a numbered list to your text (eg. when giving instructions or step-by-steps), place a number, period, and space before each line of text:
1. text1
2. text2
To write a quote style format when displaying a generated exercise, place an angle bracket and space before the text: > text
To add inline code to your text (eg. for equations or just to emphasize something), place a backtick on both sides of the message: `text`

2. **If the user's input is unclear or ambiguous**:
Request explanations, guidance, or provide suggestions.

3. **If you expect to write a long response:**
Section it with headers with paragraphs using the boldened text like _Header Name_. Do not use bullet points as headers.

</response_format>

<important>
## Instruction Reminder

Remember your instructions, follow the response format and focus on what the user is asking for.

- You only communicate in english
- Use the tools you have available
- Be clear and concise, since your messages are communicated and formatted on WhatsApp
- Ask the teacher for additional information or clarification if its needed
- Do not generate educational content if they are not provided by your tools
- If the tool has an error or does not fulfill the user request, tell the user
- Only help the teacher with subject related matter
- The user can update their subjects and personal settings manually by just typing \"settings\"

Here are your capabilities:

1. TOOL: \"search_knowledge\" - Searching the textbooks to answer course-related questions
2. TOOL: \"generate_exercise\" - Generating example exercises or questions based on a specific course-related topic
3. General tips and support
</important>
"

/-- `system_prompt.format(user_name=user.name, class_info=user.formatted_class_info)`. -/
def system_prompt_formatted (user : User) : String :=
  system_prompt_part1 ++ user.name ++ system_prompt_part2 ++
    user.formatted_class_info ++ system_prompt_part3

/-- The system message that `_format_messages` always places first. -/
def systemApiMsg (user : User) : ApiDict :=
  { role := "system", content := some (system_prompt_formatted user) }

/-! ### The conversation formatter (app/ai.py lines 280-321) -/

/-- The message of the exception `_format_messages` raises when the
persisted history is shorter than the batch of new messages. -/
def unusualCountMsg (message_count db_message_count : Nat) : String :=
  "Unusual message count scenario detected: There are " ++
    toString message_count ++ " new messages but only " ++
    toString db_message_count ++ " messages in the database."

/-- `_format_messages` (app/ai.py lines 280-321).  `database_messages` is the
value returned by `get_user_message_history` (`None` or a chronological
list); Python's `if database_messages:` is falsy both for `None` and for an
empty list, so both skip the whole deduplication block.  The raised
`Exception` becomes `Except.error`. -/
def _format_messages (new_messages : List Message)
    (database_messages : Option (List Message)) (user : User) :
    Except String (List ApiDict) :=
  let formatted_messages := [systemApiMsg user]
  let withHistory : Except String (List ApiDict) :=
    match database_messages with
    | none => .ok formatted_messages
    | some dbMsgs =>
      if dbMsgs.isEmpty then
        .ok formatted_messages
      else
        let message_count := new_messages.length
        let db_message_count := dbMsgs.length
        if db_message_count < message_count then
          .error (unusualCountMsg message_count db_message_count)
        else
          let old_messages :=
            if message_count > 0 then
              dbMsgs.take (db_message_count - message_count)
            else
              dbMsgs
          .ok (formatted_messages ++ old_messages.map Message.to_api_format)
  match withHistory with
  | .error e => .error e
  | .ok msgs => .ok (msgs ++ new_messages.map Message.to_api_format)

/-! ### The exercise generator (app/tools/generate_exercise.py)

The two prompt templates, split at their `str.format` placeholders. -/

def exercise_generator_prompt_part1 : String := "You are a skilled Tanzanian secondary school teacher that generates questions or exercises for students based on the request made by the user. This exercise is for "

def exercise_generator_prompt_part2 : String := " students. Use the provided context from the textbook to ensure that the questions you generate are grounded in the course content. Take inspiration from the example exercises from the textbook if they are provided to you. Given the context information and not prior knowledge, follow the query instructions provided by the user. Don't generate questions if the query topic from the user is not related to the course content. Begin your response immediately with the question.

EXAMPLE INTERACTION:
user: Follow these instructions (give me short answer question on Tanzania's mining industry)
Context information is below.
Tanzania has many minerals that it trades with to other countries...etc.

assistant: > List three minerals that Tanzania exports.
"

/-- `exercise_generator_prompt.format(class_info=subject)`. -/
def exercise_generator_prompt_formatted (subject : String) : String :=
  exercise_generator_prompt_part1 ++ subject ++ exercise_generator_prompt_part2

def exercise_user_prompt_part1 : String := "
Follow these instructions ("

def exercise_user_prompt_part2 : String := ")

Context information is below:

"

def exercise_user_prompt_part3 : String := "

"

/-- `exercise_user_prompt.format(query=query, context_str=context)`. -/
def exercise_user_prompt_formatted (query context : String) : String :=
  exercise_user_prompt_part1 ++ query ++ exercise_user_prompt_part2 ++
    context ++ exercise_user_prompt_part3

/-- Python truthiness of an `Optional[str]` attribute. -/
def optStrTruthy : Option String → Bool
  | some s => !(s == "")
  | none => false

/-- Python truthiness of an `Optional[int]` attribute. -/
def optIntTruthy : Option Int → Bool
  | some i => !(i == 0)
  | none => false

/-- The heading line and content that `_format_context`'s loop appends for
one chunk (app/tools/generate_exercise.py lines 100-109). -/
def chunkContextParts (chunk : Chunk) : List String :=
  let heading :=
    if optStrTruthy chunk.top_level_section_title &&
        optIntTruthy chunk.top_level_section_index then
      "-" ++ chunk.chunk_type.toStr ++ " from chapter " ++
        toString (chunk.top_level_section_index.getD 0) ++ ". " ++
        chunk.top_level_section_title.getD "" ++ " in resource " ++
        toString chunk.resource_id
    else if optStrTruthy chunk.top_level_section_title then
      "-" ++ chunk.chunk_type.toStr ++ " from section " ++
        chunk.top_level_section_title.getD "" ++ " in resource " ++
        toString chunk.resource_id
    else
      "-" ++ chunk.chunk_type.toStr ++ " from resource " ++
        toString chunk.resource_id
  [heading, chunk.content]

/-- `_format_context` (app/tools/generate_exercise.py lines 77-111).  Note
the source guards the chunk loop with `if retrieved_exercise:` — the loop
that renders `retrieved_content + retrieved_exercise` runs only when
`retrieved_exercise` is truthy (not `None`, not empty). -/
def _format_context (retrieved_content : List Chunk)
    (retrieved_exercise : Option (List Chunk))
    (resources : Option (List Resource)) : String :=
  let resourceParts : List String :=
    match resources with
    | none => []
    | some rs =>
      match rs with
      | [] => []
      | [r] => ["### Context from the resource (" ++ r.name ++ ")\n"]
      | _ =>
        ["### Context from the resources (" ++
          String.intercalate ", "
            (rs.map (fun r => toString r.id ++ ". " ++ r.name)) ++ ")\n"]
  let chunkParts : List String :=
    match retrieved_exercise with
    | none => []
    | some ex =>
      if ex.isEmpty then []
      else ((retrieved_content ++ ex).map chunkContextParts).flatten
  String.intercalate "\n" (resourceParts ++ chunkParts)

/-- The calls `generate_exercise` makes to the database and to the LLM
completion endpoint, as an event trace. -/
inductive GEEvent where
  | getResources : Int → GEEvent
  | search : String → Nat → List Int → GEEvent
  | completionCall : String → String → GEEvent
deriving DecidableEq

/-- The external collaborators of `generate_exercise`: the class-resource
lookup and vector search of app/database/db.py and the bounded completion
call (the LLM endpoint). -/
structure GenExEnv where
  get_class_resources : Int → Option (List Int)
  vector_search : String → Nat → List Int → List Chunk
  completion : String → String → String

/-- `generate_exercise` (app/tools/generate_exercise.py lines 35-74),
returning the result together with the trace of external calls it made.
`get_class_resources` returns `None` when the class has no resources
(app/database/db.py lines 252-277); `assert resource_ids` then raises
`AssertionError` — an exception whose `str(e)` is the empty string, embedded
as `.error ""`.  On success the result is the completion text. -/
def generate_exercise (env : GenExEnv) (query : String) (class_id : Int)
    (subject : String) : Except String String × List GEEvent :=
  let resource_ids := (env.get_class_resources class_id).getD []
  if resource_ids.isEmpty then
    (.error "", [.getResources class_id])
  else
    let retrieved_content := env.vector_search query 7 resource_ids
    let context := _format_context retrieved_content none none
    let systemContent := exercise_generator_prompt_formatted subject
    let userContent := exercise_user_prompt_formatted query context
    let response := env.completion systemContent userContent
    (.ok response,
      [.getResources class_id, .search query 7 resource_ids,
       .completionCall systemContent userContent])

/-- The `ToolEnv` that the real code wires up: `generate_exercise` is the
embedded body above (its exceptions surface to the executor), while
`search_knowledge` stays an oracle (its source file is not in the
repository snapshot). -/
def toolEnvOf (genv : GenExEnv) (sk : String → Int → Except String String) :
    ToolEnv :=
  { search_knowledge := sk
    generate_exercise := fun q c s => (generate_exercise genv q c s).1 }

/-! ### The orchestration loop (app/ai.py lines 180-277)

The LLM is an oracle: `first` models `chat_with_tools.invoke` (tools
bound), `second` models `chat.invoke` (no tools).  Database writes and the
external calls of the turn are recorded in an event trace in the order the
source performs them. -/

/-- One tool-call request as the first LLM call returns it
(langchain shape: `tc["id"]`, `tc["name"]`, `tc["args"]`). -/
structure ToolCallReq where
  id : String
  name : String
  args : Args
deriving DecidableEq

/-- The first LLM call's response: plain content and/or tool calls
(`getattr(llm_response, "tool_calls", None)` — an absent attribute and an
empty list behave identically under `if tool_calls:`, so both are `[]`). -/
structure LlmResponse where
  content : Option String := none
  tool_calls : List ToolCallReq := []

/-- `json.dumps` of one JSON scalar, as found in a tool-call argument
object. -/
def jsonOfPyVal : PyVal → String
  | .vstr s => "\"" ++ s ++ "\""
  | .vint i => toString i
  | .vbool b => if b then "true" else "false"
  | .vnone => "null"

/-- `json.dumps(tc["args"])` with Python's default separators. -/
def jsonDumpsArgs (args : Args) : String :=
  "\x7b" ++
    String.intercalate ", "
      (args.map (fun kv => "\"" ++ kv.1 ++ "\": " ++ jsonOfPyVal kv.2)) ++
  "\x7d"

/-- `tool_calls_data` (app/ai.py lines 205-212): each request serialized as
`{id, type: "function", function: {name, arguments: json.dumps(args)}}`. -/
def tool_calls_data (tcs : List ToolCallReq) : List ToolCallData :=
  tcs.map (fun tc =>
    { id := tc.id, type := "function"
      function := { name := tc.name, arguments := jsonDumpsArgs tc.args } })

/-- The assistant message persisted before any tool executes
(app/ai.py lines 214-220): `content = None`, the serialized tool calls. -/
def assistantToolsMessage (uid : Int) (tcs : List ToolCallReq) : Message :=
  { user_id := some uid, role := .assistant, content := none
    tool_calls := some (tool_calls_data tcs) }

/-- The tool-role message persisted right after one tool call executes
(app/ai.py lines 229-236). -/
def toolResultMessage (env : ToolEnv) (uid : Int) (tc : ToolCallReq) :
    Message :=
  { user_id := some uid, role := .tool
    content := some (execute_tool_call env tc.name tc.args)
    tool_call_id := some tc.id, tool_name := some tc.name }

/-- The assistant tool-call entry appended to the in-memory API list
(app/ai.py lines 239-241). -/
def assistantToolsApi (tcs : List ToolCallReq) : ApiDict :=
  { role := "assistant", content := none
    tool_calls := some (tool_calls_data tcs) }

/-- The tool-result entry appended to the in-memory API list for one call
(app/ai.py lines 244-252). -/
def toolResultApi (env : ToolEnv) (tc : ToolCallReq) : ApiDict :=
  { role := "tool", content := some (execute_tool_call env tc.name tc.args)
    tool_call_id := some tc.id, name := some tc.name }

/-- The API message list sent to the second LLM call: the formatted list,
then the assistant tool-call entry, then one tool-result entry per call in
the order the LLM emitted them (app/ai.py lines 239-252). -/
def apiAfterTools (env : ToolEnv) (api : List ApiDict)
    (tcs : List ToolCallReq) : List ApiDict :=
  api ++ [assistantToolsApi tcs] ++ tcs.map (toolResultApi env)

/-- The final assistant message persisted at the end of either branch
(app/ai.py lines 259-264 and 272-277). -/
def finalAssistantMessage (uid : Int) (content : String) : Message :=
  { user_id := some uid, role := .assistant, content := some content }

/-- The observable steps of one turn, in the order the source performs
them: the history read, the first LLM call (with its request), each message
write, each tool execution, and the second LLM call (with its request). -/
inductive Event where
  | fetchHistory : Int → Event
  | firstCall : List ApiDict → Event
  | persist : Message → Event
  | execTool : String → Args → Event
  | secondCall : List ApiDict → Event
deriving DecidableEq

/-- The message a `persist` event writes, if the event is one. -/
def persistedMessage : Event → Option Message
  | .persist m => some m
  | _ => none

/-- `generate_response` (app/ai.py lines 180-277).  Returns the source's
return value (`Except.error` = an uncaught exception aborting the turn)
paired with the turn's event trace.  Faithful details: the guard
`if user.id is None: return None` precedes every side effect; in the
tool-call branch the assistant message is persisted before the loop that
executes tools and persists one tool message each, and the function returns
the final message; in the no-tools branch the source persists the final
assistant message but ends without a `return` statement, so it returns
`None`. -/
def generate_response (env : ToolEnv) (first : List ApiDict → LlmResponse)
    (second : List ApiDict → Option String) (stored : List Message)
    (user : User) (message : Message) :
    Except String (Option Message) × List Event :=
  match user.id with
  | none => (.ok none, [])
  | some uid =>
    let history := get_user_message_history stored 10
    match _format_messages [message] history user with
    | .error e => (.error e, [.fetchHistory uid])
    | .ok api_messages =>
      let llm_response := first api_messages
      let tool_calls := llm_response.tool_calls
      if tool_calls.isEmpty then
        let response_content := llm_response.content.getD ""
        let final_message := finalAssistantMessage uid response_content
        (.ok none,
          [.fetchHistory uid, .firstCall api_messages,
           .persist final_message])
      else
        let assistant_message_with_tools := assistantToolsMessage uid tool_calls
        let toolEvents :=
          (tool_calls.map (fun tc =>
            [Event.execTool tc.name tc.args,
             Event.persist (toolResultMessage env uid tc)])).flatten
        let api_messages2 := apiAfterTools env api_messages tool_calls
        let response_content := (second api_messages2).getD ""
        let final_message := finalAssistantMessage uid response_content
        (.ok (some final_message),
          [.fetchHistory uid, .firstCall api_messages,
           .persist assistant_message_with_tools] ++
          toolEvents ++
          [.secondCall api_messages2, .persist final_message])

/-! ### The tool registry (app/tools/registry.py)

Claim C8 is about *mutation*: `get_tools_metadata` must not mutate the
shared static `tools_metadata` template.  To make that statement
non-trivial the registry is embedded over a small Python-style heap:
objects live at addresses, dicts and lists hold addresses, `copy.deepcopy`
allocates fresh objects, and item assignment (`d[k] = v`) is an in-place
heap write.  `readTree` reads the value reachable from an address back as a
tree, so "the template is unchanged" is an equality of read-back values. -/

/-- A heap object: a string, a list of ints (the written `enum` value,
kept as one leaf), a dict mapping keys to addresses, or a list of
addresses. -/
inductive PyObj where
  | ostr : String → PyObj
  | ointList : List Int → PyObj
  | odict : List (String × Nat) → PyObj
  | olist : List Nat → PyObj
deriving DecidableEq

/-- The heap: the object at address `a` is the list entry at index `a`;
allocation appends. -/
abbrev Heap := List PyObj

def heapGet (h : Heap) (a : Nat) : Option PyObj := h.get? a

/-- A Python value as a tree, used to build the template literal and to
read back what an address denotes. -/
inductive PyTree where
  | str : String → PyTree
  | intList : List Int → PyTree
  | dict : List (String × PyTree) → PyTree
  | list : List PyTree → PyTree

mutual

/-- Store a tree in the heap, returning the extended heap and the root
address (how the module-level literal is materialised). -/
def injectTree : Heap → PyTree → Heap × Nat
  | h, .str s => (h ++ [.ostr s], h.length)
  | h, .intList l => (h ++ [.ointList l], h.length)
  | h, .dict kvs =>
    let r := injectPairs h kvs
    (r.1 ++ [.odict r.2], r.1.length)
  | h, .list ts =>
    let r := injectElems h ts
    (r.1 ++ [.olist r.2], r.1.length)

def injectPairs : Heap → List (String × PyTree) → Heap × List (String × Nat)
  | h, [] => (h, [])
  | h, kv :: rest =>
    let ha := injectTree h kv.2
    let hr := injectPairs ha.1 rest
    (hr.1, (kv.1, ha.2) :: hr.2)

def injectElems : Heap → List PyTree → Heap × List Nat
  | h, [] => (h, [])
  | h, t :: rest =>
    let ha := injectTree h t
    let hr := injectElems ha.1 rest
    (hr.1, ha.2 :: hr.2)

end

/-- Read the value reachable from `a` back as a tree (fuel-bounded; the
heaps here are acyclic and shallow). -/
def readTree : Nat → Heap → Nat → Option PyTree
  | 0, _, _ => none
  | fuel + 1, h, a =>
    match heapGet h a with
    | some (.ostr s) => some (.str s)
    | some (.ointList l) => some (.intList l)
    | some (.odict kvs) =>
      (kvs.mapM (fun kv => (readTree fuel h kv.2).map (fun t => (kv.1, t)))).map
        PyTree.dict
    | some (.olist as) =>
      (as.mapM (readTree fuel h)).map PyTree.list
    | none => none

/-- Copy the values of a dict one after the other (the recursive calls
`deepcopy` makes for `dict` members); `dc` is `deepcopy` at the next fuel
level. -/
def deepcopyPairs (dc : Heap → Nat → Heap × Nat) :
    Heap → List (String × Nat) → Heap × List (String × Nat)
  | h, [] => (h, [])
  | h, kv :: rest =>
    let ha := dc h kv.2
    let hr := deepcopyPairs dc ha.1 rest
    (hr.1, (kv.1, ha.2) :: hr.2)

/-- Copy the elements of a list one after the other (the recursive calls
`deepcopy` makes for `list` members); `dc` is `deepcopy` at the next fuel
level. -/
def deepcopyElems (dc : Heap → Nat → Heap × Nat) :
    Heap → List Nat → Heap × List Nat
  | h, [] => (h, [])
  | h, x :: rest =>
    let ha := dc h x
    let hr := deepcopyElems dc ha.1 rest
    (hr.1, ha.2 :: hr.2)

/-- `copy.deepcopy`: recursively copy the object graph under `a` into fresh
addresses (fuel-bounded; the template has no shared references, so plain
recursion is faithful). -/
def deepcopy : Nat → Heap → Nat → Heap × Nat
  | 0, h, _ => (h ++ [.ostr "fuel"], h.length)
  | fuel + 1, h, a =>
    match heapGet h a with
    | some (.ostr s) => (h ++ [.ostr s], h.length)
    | some (.ointList l) => (h ++ [.ointList l], h.length)
    | some (.odict kvs) =>
      let r := deepcopyPairs (deepcopy fuel) h kvs
      (r.1 ++ [.odict r.2], r.1.length)
    | some (.olist as) =>
      let r := deepcopyElems (deepcopy fuel) h as
      (r.1 ++ [.olist r.2], r.1.length)
    | none => (h ++ [.ostr "missing"], h.length)

/-- `d[k]`'s address, for the dict object at `a`. -/
def dictGetAddr (h : Heap) (a : Nat) (k : String) : Option Nat :=
  match heapGet h a with
  | some (.odict kvs) => (kvs.find? (fun kv => kv.1 == k)).map (fun kv => kv.2)
  | _ => none

/-- Python dict assignment on the underlying association list: overwrite in
place if the key exists (keeping its position), else append. -/
def assocSet : List (String × Nat) → String → Nat → List (String × Nat)
  | [], k, v => [(k, v)]
  | (k0, v0) :: rest, k, v =>
    if k0 == k then (k, v) :: rest else (k0, v0) :: assocSet rest k v

/-- `d[k] = v` as an in-place heap write on the dict object at `a`. -/
def dictSetKey (h : Heap) (a : Nat) (k : String) (v : Nat) : Heap :=
  match heapGet h a with
  | some (.odict kvs) => h.set a (.odict (assocSet kvs k v))
  | _ => h

/-- The module-level `tools_metadata` literal
(app/tools/registry.py lines 4-51), as the tree the module materialises
once at import time. -/
def tools_metadata : PyTree :=
  .list [
    .dict [
      ("type", .str "function"),
      ("function", .dict [
        ("name", .str "search_knowledge"),
        ("description", .str "Get relevant information from the knowledge base."),
        ("parameters", .dict [
          ("type", .str "object"),
          ("properties", .dict [
            ("search_phrase", .dict [
              ("type", .str "string"),
              ("description", .str "A message describing the information you are looking for.")
            ]),
            ("class_id", .dict [
              ("type", .str "integer"),
              ("description", .str "The class id of the course the question should be based on. Available class IDs: \x7bavailable_class_ids\x7d")
            ])
          ]),
          ("required", .list [.str "search_phrase", .str "class_id"])
        ])
      ])
    ],
    .dict [
      ("type", .str "function"),
      ("function", .dict [
        ("name", .str "generate_exercise"),
        ("description", .str "Generate a single question for the students based on course literature"),
        ("parameters", .dict [
          ("type", .str "object"),
          ("properties", .dict [
            ("query", .dict [
              ("type", .str "string"),
              ("description", .str "A short message describing the desired question or exercise and the topic it should be about. Request just one question.")
            ]),
            ("class_id", .dict [
              ("type", .str "integer"),
              ("description", .str "The class id of the course the question should be based on. Available class IDs: \x7bavailable_class_ids\x7d")
            ]),
            ("subject", .dict [
              ("type", .str "string"),
              ("description", .str "The subject of the course the question should be based on.")
            ])
          ]),
          ("required", .list [.str "query", .str "class_id", .str "subject"])
        ])
      ])
    ]
  ]

/-- The module state after `import app.tools.registry`: the heap holding the
template, and the address the global `tools_metadata` points to. -/
def registryHeap : Heap × Nat := injectTree [] tools_metadata

/-- `json.dumps` of the user's class-name-to-id dict, the string
`create_langchain_tools` passes as `available_classes`
(app/ai.py line 86).  `get_tools_metadata` parses it back with
`json.loads`; the dumps/loads round trip is the identity on such a dict, so
the embedding passes the association list itself alongside this rendering
of it. -/
def jsonDumpsStrIntMap (m : List (String × Int)) : String :=
  "\x7b" ++
    String.intercalate ", "
      (m.map (fun kv => "\"" ++ kv.1 ++ "\": " ++ toString kv.2)) ++
  "\x7d"

/-- The body of the registry's `for tool in tools:` loop for one tool: if
the tool's `properties` contain `class_id`, assign a fresh description
string and the enum `list(json.loads(available_classes).values())` onto the
(copied) `class_id` dict, in that order. -/
def gtmToolStep (available_classes : List (String × Int)) (hAcc : Heap)
    (toolAddr : Nat) : Heap :=
  match dictGetAddr hAcc toolAddr "function" with
  | none => hAcc
  | some f =>
    match dictGetAddr hAcc f "parameters" with
    | none => hAcc
    | some p =>
      match dictGetAddr hAcc p "properties" with
      | none => hAcc
      | some propsAddr =>
        match dictGetAddr hAcc propsAddr "class_id" with
        | none => hAcc
        | some cidAddr =>
          let descAddr := hAcc.length
          let h2 := hAcc ++
            [PyObj.ostr ("The class ID for the course. Available classes: " ++
              jsonDumpsStrIntMap available_classes)]
          let h3 := dictSetKey h2 cidAddr "description" descAddr
          let enumAddr := h3.length
          let h4 := h3 ++
            [PyObj.ointList (available_classes.map (fun kv => kv.2))]
          dictSetKey h4 cidAddr "enum" enumAddr

/-- The registry's `for tool in tools:` loop, one `gtmToolStep` per tool. -/
def gtmLoop (available_classes : List (String × Int)) :
    Heap → List Nat → Heap
  | h, [] => h
  | h, toolAddr :: rest =>
    gtmLoop available_classes (gtmToolStep available_classes h toolAddr) rest

/-- `get_tools_metadata` (app/tools/registry.py lines 54-78) over the heap:
`tools = copy.deepcopy(tools_metadata)`, then the per-tool loop above on
the copy.  Returns the final heap and the address of the copied tool
list. -/
def get_tools_metadata (h : Heap) (templ : Nat)
    (available_classes : List (String × Int)) : Heap × Nat :=
  let copied := deepcopy 100 h templ
  let h1 := copied.1
  let toolsAddr := copied.2
  let toolAddrs := match heapGet h1 toolsAddr with
    | some (.olist as) => as
    | _ => []
  (gtmLoop available_classes h1 toolAddrs, toolsAddr)

/-- The name of tool number `i` in the returned tool list:
`tools[i]["function"]["name"]`. -/
def toolName (h : Heap) (toolsAddr : Nat) (i : Nat) : Option String := do
  let toolAddr ← (match heapGet h toolsAddr with
    | some (.olist as) => as.get? i
    | _ => none)
  let f ← dictGetAddr h toolAddr "function"
  let n ← dictGetAddr h f "name"
  match heapGet h n with
  | some (.ostr s) => some s
  | _ => none

/-- The `class_id` enum of tool number `i` in the returned tool list:
`tools[i]["function"]["parameters"]["properties"]["class_id"]["enum"]`. -/
def toolClassIdEnum (h : Heap) (toolsAddr : Nat) (i : Nat) :
    Option (List Int) := do
  let toolAddr ← (match heapGet h toolsAddr with
    | some (.olist as) => as.get? i
    | _ => none)
  let f ← dictGetAddr h toolAddr "function"
  let p ← dictGetAddr h f "parameters"
  let props ← dictGetAddr h p "properties"
  let cid ← dictGetAddr h props "class_id"
  let e ← dictGetAddr h cid "enum"
  match heapGet h e with
  | some (.ointList l) => some l
  | _ => none

/-! ### Heap lemmas: `get_tools_metadata` never touches existing objects

`deepcopy` only appends fresh objects that reference fresh addresses, and
the registry loop writes only through addresses reached from the copy's
root, so every heap index that existed before the call still holds the same
object afterwards.  `readTree` of any previously stored closed value is
therefore unchanged — for any `available_classes` and any number of
calls. -/

/-- The addresses an object stores. -/
def PyObj.addrs : PyObj → List Nat
  | .odict kvs => kvs.map (fun kv => kv.2)
  | .olist as => as
  | _ => []

/-- Every object of `ext` references only addresses in `[lo, hi)`. -/
def extOk (lo hi : Nat) (ext : Heap) : Prop :=
  ∀ o ∈ ext, ∀ x ∈ o.addrs, lo ≤ x ∧ x < hi

/-- A closed heap: every stored address points inside the heap. -/
def heapWf (h : Heap) : Prop := ∀ o ∈ h, ∀ x ∈ o.addrs, x < h.length

lemma extOk_nil {lo hi : Nat} : extOk lo hi [] := by
  intro o ho; cases ho

lemma extOk_mono {lo lo' hi hi' : Nat} {ext : Heap} (h : extOk lo hi ext)
    (hlo : lo' ≤ lo) (hhi : hi ≤ hi') : extOk lo' hi' ext := by
  intro o ho x hx
  obtain ⟨h1, h2⟩ := h o ho x hx
  exact ⟨le_trans hlo h1, lt_of_lt_of_le h2 hhi⟩

lemma extOk_append {lo hi : Nat} {e1 e2 : Heap} (h1 : extOk lo hi e1)
    (h2 : extOk lo hi e2) : extOk lo hi (e1 ++ e2) := by
  intro o ho x hx
  rcases List.mem_append.mp ho with ho | ho
  · exact h1 o ho x hx
  · exact h2 o ho x hx

lemma extOk_leaf {lo hi : Nat} {o : PyObj} (h : o.addrs = []) :
    extOk lo hi [o] := by
  intro o' ho' x hx
  rcases List.mem_singleton.mp ho' with rfl
  rw [h] at hx
  cases hx

lemma heapWf_append {h ext : Heap}
    (hwf : heapWf h) (hok : extOk h.length (h.length + ext.length) ext) :
    heapWf (h ++ ext) := by
  intro o ho x hx
  rw [List.length_append]
  rcases List.mem_append.mp ho with ho | ho
  · exact lt_of_lt_of_le (hwf o ho x hx) (Nat.le_add_right _ _)
  · exact (hok o ho x hx).2

/-- What one `deepcopy` call guarantees: it only appends, the returned root
is fresh, and the appended objects reference only fresh addresses. -/
def DeepcopySpec (dc : Heap → Nat → Heap × Nat) : Prop :=
  ∀ h a, ∃ ext r, dc h a = (h ++ ext, r) ∧
    h.length ≤ r ∧ r < h.length + ext.length ∧
    extOk h.length (h.length + ext.length) ext

lemma deepcopyPairs_spec {dc : Heap → Nat → Heap × Nat}
    (ih : DeepcopySpec dc) (kvs : List (String × Nat)) :
    ∀ h : Heap, ∃ ext as2,
      deepcopyPairs dc h kvs = (h ++ ext, as2) ∧
      (∀ p ∈ as2, h.length ≤ p.2 ∧ p.2 < h.length + ext.length) ∧
      extOk h.length (h.length + ext.length) ext := by
  induction kvs with
  | nil =>
    intro h
    exact ⟨[], [], by simp [deepcopyPairs], by simp, extOk_nil⟩
  | cons kv rest ihr =>
    intro h
    obtain ⟨e1, r1, hc, hr1, hr1u, he1⟩ := ih h kv.2
    obtain ⟨e2, as2, hp, has2, he2⟩ := ihr (h ++ e1)
    refine ⟨e1 ++ e2, (kv.1, r1) :: as2, ?_, ?_, ?_⟩
    · simp only [deepcopyPairs, hc, hp, List.append_assoc]
    · intro p hp'
      rcases List.mem_cons.mp hp' with rfl | hp'
      · constructor
        · exact hr1
        · simp only [List.length_append]
          omega
      · have := has2 p hp'
        simp only [List.length_append] at this ⊢
        omega
    · apply extOk_append
      · apply extOk_mono he1 (le_refl _)
        simp only [List.length_append]
        omega
      · apply extOk_mono he2 (by simp) (le_of_eq ?_)
        simp only [List.length_append]
        omega

lemma deepcopyElems_spec {dc : Heap → Nat → Heap × Nat}
    (ih : DeepcopySpec dc) (as : List Nat) :
    ∀ h : Heap, ∃ ext as2,
      deepcopyElems dc h as = (h ++ ext, as2) ∧
      (∀ x ∈ as2, h.length ≤ x ∧ x < h.length + ext.length) ∧
      extOk h.length (h.length + ext.length) ext := by
  induction as with
  | nil =>
    intro h
    exact ⟨[], [], by simp [deepcopyElems], by simp, extOk_nil⟩
  | cons x rest ihr =>
    intro h
    obtain ⟨e1, r1, hc, hr1, hr1u, he1⟩ := ih h x
    obtain ⟨e2, as2, hp, has2, he2⟩ := ihr (h ++ e1)
    refine ⟨e1 ++ e2, r1 :: as2, ?_, ?_, ?_⟩
    · simp only [deepcopyElems, hc, hp, List.append_assoc]
    · intro p hp'
      rcases List.mem_cons.mp hp' with rfl | hp'
      · constructor
        · exact hr1
        · simp only [List.length_append]
          omega
      · have := has2 p hp'
        simp only [List.length_append] at this ⊢
        omega
    · apply extOk_append
      · apply extOk_mono he1 (le_refl _)
        simp only [List.length_append]
        omega
      · apply extOk_mono he2 (by simp) (le_of_eq ?_)
        simp only [List.length_append]
        omega

lemma deepcopy_spec : ∀ fuel, DeepcopySpec (deepcopy fuel) := by
  intro fuel
  induction fuel with
  | zero =>
    intro h a
    exact ⟨[.ostr "fuel"], h.length, by simp [deepcopy], le_refl _, by simp,
      extOk_leaf rfl⟩
  | succ fuel ih =>
    intro h a
    cases hg : heapGet h a with
    | none =>
      exact ⟨[.ostr "missing"], h.length, by simp [deepcopy, hg], le_refl _,
        by simp, extOk_leaf rfl⟩
    | some o =>
      cases o with
      | ostr s =>
        exact ⟨[.ostr s], h.length, by simp [deepcopy, hg], le_refl _,
          by simp, extOk_leaf rfl⟩
      | ointList l =>
        exact ⟨[.ointList l], h.length, by simp [deepcopy, hg], le_refl _,
          by simp, extOk_leaf rfl⟩
      | odict kvs =>
        obtain ⟨ext, as2, hp, has2, hext⟩ := deepcopyPairs_spec ih kvs h
        refine ⟨ext ++ [.odict as2], h.length + ext.length, ?_, ?_, ?_, ?_⟩
        · simp only [deepcopy, hg, hp, List.append_assoc, List.length_append]
        · omega
        · simp only [List.length_append, List.length_cons, List.length_nil]
          omega
        · apply extOk_append
          · apply extOk_mono hext (le_refl _)
            simp only [List.length_append, List.length_cons, List.length_nil]
            omega
          · intro o' ho' x hx
            rcases List.mem_singleton.mp ho' with rfl
            simp only [PyObj.addrs, List.mem_map] at hx
            obtain ⟨p, hpmem, rfl⟩ := hx
            have := has2 p hpmem
            simp only [List.length_append, List.length_cons, List.length_nil]
            omega
      | olist as =>
        obtain ⟨ext, as2, hp, has2, hext⟩ := deepcopyElems_spec ih as h
        refine ⟨ext ++ [.olist as2], h.length + ext.length, ?_, ?_, ?_, ?_⟩
        · simp only [deepcopy, hg, hp, List.append_assoc, List.length_append]
        · omega
        · simp only [List.length_append, List.length_cons, List.length_nil]
          omega
        · apply extOk_append
          · apply extOk_mono hext (le_refl _)
            simp only [List.length_append, List.length_cons, List.length_nil]
            omega
          · intro o' ho' x hx
            rcases List.mem_singleton.mp ho' with rfl
            simp only [PyObj.addrs] at hx
            have := has2 x hx
            simp only [List.length_append, List.length_cons, List.length_nil]
            omega

/-- Reading a dict entry through an address in the fresh region yields a
fresh address again. -/
lemma dictGetAddr_fresh {horig ext : Heap} {hi a v : Nat} {k : String}
    (hok : extOk horig.length hi ext) (ha : horig.length ≤ a)
    (hv : dictGetAddr (horig ++ ext) a k = some v) :
    horig.length ≤ v ∧ v < hi := by
  unfold dictGetAddr at hv
  cases hg : heapGet (horig ++ ext) a with
  | none => rw [hg] at hv; cases hv
  | some o =>
    rw [hg] at hv
    cases o with
    | odict kvs =>
      simp only [Option.map_eq_some'] at hv
      obtain ⟨kv, hfind, rfl⟩ := hv
      have hmem : kv ∈ kvs := List.mem_of_find?_eq_some hfind
      have hobj : PyObj.odict kvs ∈ ext := by
        unfold heapGet at hg
        rw [List.get?_append_right ha] at hg
        exact List.get?_mem hg
      exact hok _ hobj kv.2 (List.mem_map_of_mem _ hmem)
    | ostr s => cases hv
    | ointList l => cases hv
    | olist as => cases hv

/-- `assocSet` only stores the old addresses and the new one. -/
lemma assocSet_addrs {kvs : List (String × Nat)} {k : String} {v x : Nat}
    (hx : x ∈ (assocSet kvs k v).map (fun p => p.2)) :
    x ∈ kvs.map (fun p => p.2) ∨ x = v := by
  induction kvs with
  | nil =>
    simp only [assocSet, List.map_cons, List.map_nil, List.mem_singleton] at hx
    exact Or.inr hx
  | cons kv rest ihr =>
    simp only [assocSet] at hx
    by_cases hk : kv.1 == k
    · rw [if_pos hk] at hx
      simp only [List.map_cons, List.mem_cons] at hx
      rcases hx with rfl | hx
      · exact Or.inr rfl
      · exact Or.inl (by simp only [List.map_cons, List.mem_cons]; exact Or.inr hx)
    · rw [if_neg hk] at hx
      simp only [List.map_cons, List.mem_cons] at hx
      rcases hx with rfl | hx
      · exact Or.inl (by simp)
      · rcases ihr hx with h | h
        · exact Or.inl (by simp only [List.map_cons, List.mem_cons]; exact Or.inr h)
        · exact Or.inr h

lemma set_append_right {α : Type} {l1 l2 : List α} {n : Nat}
    (h : l1.length ≤ n) (x : α) :
    (l1 ++ l2).set n x = l1 ++ l2.set (n - l1.length) x := by
  induction l1 generalizing n with
  | nil => simp
  | cons y ys ih =>
    cases n with
    | zero => exact absurd h (by simp)
    | succ n =>
      have h' : ys.length ≤ n := by simpa using h
      calc ((y :: ys) ++ l2).set (n + 1) x
          = y :: (ys ++ l2).set n x := rfl
        _ = y :: (ys ++ l2.set (n - ys.length) x) := by rw [ih h']
        _ = (y :: ys) ++ l2.set ((n + 1) - (y :: ys).length) x := by
            simp only [List.length_cons, List.cons_append, List.cons_inj_right]
            congr 2
            omega

/-- A `d[k] = v` write through a fresh dict address keeps the original
region intact and preserves the freshness invariant (the written address
must itself be fresh and in range). -/
lemma dictSetKey_fresh {horig ext : Heap} {a v : Nat} {k : String}
    (hok : extOk horig.length (horig.length + ext.length) ext)
    (ha : horig.length ≤ a) (hv : horig.length ≤ v)
    (hvlt : v < horig.length + ext.length) :
    ∃ ext2, dictSetKey (horig ++ ext) a k v = horig ++ ext2 ∧
      ext2.length = ext.length ∧
      extOk horig.length (horig.length + ext2.length) ext2 := by
  unfold dictSetKey
  cases hg : heapGet (horig ++ ext) a with
  | none => exact ⟨ext, rfl, rfl, hok⟩
  | some o =>
    cases o with
    | ostr s => exact ⟨ext, rfl, rfl, hok⟩
    | ointList l => exact ⟨ext, rfl, rfl, hok⟩
    | olist as => exact ⟨ext, rfl, rfl, hok⟩
    | odict kvs =>
      have hobj : PyObj.odict kvs ∈ ext := by
        unfold heapGet at hg
        rw [List.get?_append_right ha] at hg
        exact List.get?_mem hg
      refine ⟨ext.set (a - horig.length) (PyObj.odict (assocSet kvs k v)),
        set_append_right ha _, List.length_set .., ?_⟩
      intro o' ho' x hx
      rw [List.length_set]
      rcases List.mem_or_eq_of_mem_set ho' with ho' | rfl
      · exact hok o' ho' x hx
      · simp only [PyObj.addrs] at hx
        rcases assocSet_addrs hx with hx | rfl
        · exact hok _ hobj x hx
        · exact ⟨hv, hvlt⟩

/-- One iteration of the registry loop keeps the original region intact and
the extension fresh. -/
lemma gtmToolStep_fresh (m : List (String × Int)) {horig ext : Heap}
    {toolAddr : Nat}
    (hok : extOk horig.length (horig.length + ext.length) ext)
    (hta : horig.length ≤ toolAddr) :
    ∃ ext2, gtmToolStep m (horig ++ ext) toolAddr = horig ++ ext2 ∧
      extOk horig.length (horig.length + ext2.length) ext2 := by
  unfold gtmToolStep
  split
  next hf => exact ⟨ext, rfl, hok⟩
  next f hf =>
    have hfb := dictGetAddr_fresh hok hta hf
    split
    next hp => exact ⟨ext, rfl, hok⟩
    next p hp =>
      have hpb := dictGetAddr_fresh hok hfb.1 hp
      split
      next hpr => exact ⟨ext, rfl, hok⟩
      next props hpr =>
        have hprb := dictGetAddr_fresh hok hpb.1 hpr
        split
        next hc => exact ⟨ext, rfl, hok⟩
        next cid hc =>
          have hcb := dictGetAddr_fresh hok hprb.1 hc
          -- the description cell is appended and written, then the enum
          -- cell is appended and written
          have hok1 : extOk horig.length
              (horig.length + (ext ++ [PyObj.ostr
                ("The class ID for the course. Available classes: " ++
                  jsonDumpsStrIntMap m)]).length)
              (ext ++ [PyObj.ostr
                ("The class ID for the course. Available classes: " ++
                  jsonDumpsStrIntMap m)]) := by
            apply extOk_append
            · apply extOk_mono hok (le_refl _)
              simp only [List.length_append, List.length_cons, List.length_nil]
              omega
            · exact extOk_leaf rfl
          obtain ⟨ext3, heq3, hlen3, hok3⟩ :=
            dictSetKey_fresh (a := cid) (k := "description")
              (v := (horig ++ ext).length) hok1 hcb.1
              (by simp only [List.length_append]; omega)
              (by simp only [List.length_append, List.length_cons,
                    List.length_nil]; omega)
          have hok4 : extOk horig.length
              (horig.length + (ext3 ++ [PyObj.ointList
                (m.map (fun kv => kv.2))]).length)
              (ext3 ++ [PyObj.ointList (m.map (fun kv => kv.2))]) := by
            apply extOk_append
            · apply extOk_mono hok3 (le_refl _)
              simp only [List.length_append, List.length_cons, List.length_nil]
              omega
            · exact extOk_leaf rfl
          obtain ⟨ext5, heq5, hlen5, hok5⟩ :=
            dictSetKey_fresh (a := cid) (k := "enum")
              (v := (horig ++ ext3).length) hok4 hcb.1
              (by simp only [List.length_append]; omega)
              (by simp only [List.length_append, List.length_cons,
                    List.length_nil]; omega)
          refine ⟨ext5, ?_, hok5⟩
          simp only [List.append_assoc]
          rw [heq3, List.append_assoc, heq5]

/-- The whole registry loop keeps the original region intact. -/
lemma gtmLoop_fresh (m : List (String × Int)) {horig : Heap} :
    ∀ (tas : List Nat) (ext : Heap),
      extOk horig.length (horig.length + ext.length) ext →
      (∀ t ∈ tas, horig.length ≤ t) →
      ∃ ext2, gtmLoop m (horig ++ ext) tas = horig ++ ext2 ∧
        extOk horig.length (horig.length + ext2.length) ext2 := by
  intro tas
  induction tas with
  | nil => intro ext hok _; exact ⟨ext, rfl, hok⟩
  | cons t rest ih =>
    intro ext hok hts
    obtain ⟨ext2, heq, hok2⟩ := gtmToolStep_fresh m hok (hts t (by simp))
    obtain ⟨ext3, heq3, hok3⟩ := ih ext2 hok2
      (fun t' ht' => hts t' (by simp [ht']))
    exact ⟨ext3, by simp only [gtmLoop, heq, heq3], hok3⟩

/-- `get_tools_metadata` only appends to the heap: there is an extension
`ext` of exclusively fresh, upward-closed objects. -/
lemma get_tools_metadata_extends (h : Heap) (templ : Nat)
    (m : List (String × Int)) :
    ∃ ext, (get_tools_metadata h templ m).1 = h ++ ext ∧
      extOk h.length (h.length + ext.length) ext := by
  unfold get_tools_metadata
  obtain ⟨e0, r, hdc, hr, hru, he0⟩ := deepcopy_spec 100 h templ
  rw [hdc]
  cases hg : heapGet (h ++ e0) r with
  | none =>
    simpa only [hg] using gtmLoop_fresh m [] e0 he0 (by intro t ht; cases ht)
  | some o =>
    cases o with
    | ostr s =>
      simpa only [hg] using gtmLoop_fresh m [] e0 he0 (by intro t ht; cases ht)
    | ointList l =>
      simpa only [hg] using gtmLoop_fresh m [] e0 he0 (by intro t ht; cases ht)
    | odict kvs =>
      simpa only [hg] using gtmLoop_fresh m [] e0 he0 (by intro t ht; cases ht)
    | olist as =>
      have hobj : PyObj.olist as ∈ e0 := by
        unfold heapGet at hg
        rw [List.get?_append_right hr] at hg
        exact List.get?_mem hg
      simpa only [hg] using gtmLoop_fresh m as e0 he0
        (fun t ht => (he0 _ hobj t ht).1)

/-- `mapM` over `Option` only depends on the function's values on the
list. -/
lemma optionMapM_congr {α β : Type} (l : List α) (f g : α → Option β)
    (h : ∀ x ∈ l, f x = g x) : l.mapM f = l.mapM g := by
  induction l with
  | nil => rfl
  | cons x rest ih =>
    simp only [List.mapM_cons]
    rw [h x (by simp), ih (fun y hy => h y (by simp [hy]))]

/-- Reading a closed value stored in `h` is unaffected by anything appended
behind `h`. -/
lemma readTree_append {h : Heap} (hwf : heapWf h) (ext : Heap) :
    ∀ fuel a, a < h.length → readTree fuel (h ++ ext) a = readTree fuel h a := by
  intro fuel
  induction fuel with
  | zero => intro a _; rfl
  | succ fuel ih =>
    intro a ha
    have hg : heapGet (h ++ ext) a = heapGet h a := by
      unfold heapGet
      exact List.get?_append ha
    unfold readTree
    rw [hg]
    cases hga : heapGet h a with
    | none => rfl
    | some o =>
      have hom : o ∈ h := by
        unfold heapGet at hga
        exact List.get?_mem hga
      cases o with
      | ostr s => rfl
      | ointList l => rfl
      | odict kvs =>
        have : kvs.mapM (fun kv => (readTree fuel (h ++ ext) kv.2).map
            (fun t => (kv.1, t))) =
          kvs.mapM (fun kv => (readTree fuel h kv.2).map
            (fun t => (kv.1, t))) := by
          apply optionMapM_congr
          intro kv hkv
          rw [ih kv.2 (hwf _ hom kv.2 (List.mem_map_of_mem _ hkv))]
        exact congrArg (Option.map PyTree.dict) this
      | olist as =>
        have : as.mapM (readTree fuel (h ++ ext)) = as.mapM (readTree fuel h) := by
          apply optionMapM_congr
          intro x hx
          exact ih x (hwf _ hom x hx)
        exact congrArg (Option.map PyTree.list) this

/-- One `get_tools_metadata` call: reads below the old heap end are
unchanged, the heap stays closed, and it only grows. -/
lemma get_tools_metadata_preserves (h : Heap) (hwf : heapWf h) (templ : Nat)
    (m : List (String × Int)) :
    (∀ fuel a, a < h.length →
      readTree fuel (get_tools_metadata h templ m).1 a = readTree fuel h a) ∧
    heapWf (get_tools_metadata h templ m).1 ∧
    h.length ≤ (get_tools_metadata h templ m).1.length := by
  obtain ⟨ext, heq, hok⟩ := get_tools_metadata_extends h templ m
  rw [heq]
  exact ⟨fun fuel a ha => readTree_append hwf ext fuel a ha,
    heapWf_append hwf hok, by simp⟩

/-- `n` successive `get_tools_metadata` calls (each with its own
`available_classes`), threading the heap - the shared module state - from
call to call. -/
def iterateGtm (templ : Nat) : Heap → List (List (String × Int)) → Heap
  | h, [] => h
  | h, m :: ms => iterateGtm templ (get_tools_metadata h templ m).1 ms

lemma iterateGtm_preserves (templ : Nat) :
    ∀ (ms : List (List (String × Int))) (h : Heap), heapWf h →
      (∀ fuel a, a < h.length →
        readTree fuel (iterateGtm templ h ms) a = readTree fuel h a) ∧
      heapWf (iterateGtm templ h ms) ∧
      h.length ≤ (iterateGtm templ h ms).length := by
  intro ms
  induction ms with
  | nil => exact fun h hwf => ⟨fun _ _ _ => rfl, hwf, le_refl _⟩
  | cons m rest ih =>
    intro h hwf
    obtain ⟨hread1, hwf1, hlen1⟩ := get_tools_metadata_preserves h hwf templ m
    obtain ⟨hread2, hwf2, hlen2⟩ := ih (get_tools_metadata h templ m).1 hwf1
    refine ⟨?_, hwf2, le_trans hlen1 hlen2⟩
    intro fuel a ha
    calc readTree fuel (iterateGtm templ h (m :: rest)) a
        = readTree fuel (iterateGtm templ (get_tools_metadata h templ m).1 rest) a := rfl
      _ = readTree fuel (get_tools_metadata h templ m).1 a :=
          hread2 fuel a (lt_of_lt_of_le ha hlen1)
      _ = readTree fuel h a := hread1 fuel a ha

/-! ### Evaluating `get_tools_metadata` on the registry's module state

For claim C7 the call is evaluated outright, for an arbitrary per-user
class map `m`: the computation is staged through explicit intermediate
heaps (the copy, then one heap per loop iteration) so each stage reduces on
a concrete heap literal. -/

/-- The copied-and-rewritten cell holding the per-user `class_id`
description. -/
def descCell (m : List (String × Int)) : PyObj :=
  .ostr ("The class ID for the course. Available classes: " ++
    jsonDumpsStrIntMap m)

/-- The copied-and-rewritten cell holding the per-user `class_id` enum:
`list(json.loads(available_classes).values())`. -/
def enumCell (m : List (String × Int)) : PyObj :=
  .ointList (m.map (fun kv => kv.2))

/-- The heap right after `tools = copy.deepcopy(tools_metadata)`: the
template (cells 0-38) followed by its copy (cells 39-77, root 77). -/
def copiedRegistryHeap : Heap :=
[PyObj.ostr "function",
 PyObj.ostr "search_knowledge",
 PyObj.ostr "Get relevant information from the knowledge base.",
 PyObj.ostr "object",
 PyObj.ostr "string",
 PyObj.ostr "A message describing the information you are looking for.",
 PyObj.odict [("type", 4), ("description", 5)],
 PyObj.ostr "integer",
 PyObj.ostr "The class id of the course the question should be based on. Available class IDs: \x7bavailable_class_ids\x7d",
 PyObj.odict [("type", 7), ("description", 8)],
 PyObj.odict [("search_phrase", 6), ("class_id", 9)],
 PyObj.ostr "search_phrase",
 PyObj.ostr "class_id",
 PyObj.olist [11, 12],
 PyObj.odict [("type", 3), ("properties", 10), ("required", 13)],
 PyObj.odict [("name", 1), ("description", 2), ("parameters", 14)],
 PyObj.odict [("type", 0), ("function", 15)],
 PyObj.ostr "function",
 PyObj.ostr "generate_exercise",
 PyObj.ostr "Generate a single question for the students based on course literature",
 PyObj.ostr "object",
 PyObj.ostr "string",
 PyObj.ostr
   "A short message describing the desired question or exercise and the topic it should be about. Request just one question.",
 PyObj.odict [("type", 21), ("description", 22)],
 PyObj.ostr "integer",
 PyObj.ostr "The class id of the course the question should be based on. Available class IDs: \x7bavailable_class_ids\x7d",
 PyObj.odict [("type", 24), ("description", 25)],
 PyObj.ostr "string",
 PyObj.ostr "The subject of the course the question should be based on.",
 PyObj.odict [("type", 27), ("description", 28)],
 PyObj.odict [("query", 23), ("class_id", 26), ("subject", 29)],
 PyObj.ostr "query",
 PyObj.ostr "class_id",
 PyObj.ostr "subject",
 PyObj.olist [31, 32, 33],
 PyObj.odict [("type", 20), ("properties", 30), ("required", 34)],
 PyObj.odict [("name", 18), ("description", 19), ("parameters", 35)],
 PyObj.odict [("type", 17), ("function", 36)],
 PyObj.olist [16, 37],
 PyObj.ostr "function",
 PyObj.ostr "search_knowledge",
 PyObj.ostr "Get relevant information from the knowledge base.",
 PyObj.ostr "object",
 PyObj.ostr "string",
 PyObj.ostr "A message describing the information you are looking for.",
 PyObj.odict [("type", 43), ("description", 44)],
 PyObj.ostr "integer",
 PyObj.ostr "The class id of the course the question should be based on. Available class IDs: \x7bavailable_class_ids\x7d",
 PyObj.odict [("type", 46), ("description", 47)],
 PyObj.odict [("search_phrase", 45), ("class_id", 48)],
 PyObj.ostr "search_phrase",
 PyObj.ostr "class_id",
 PyObj.olist [50, 51],
 PyObj.odict [("type", 42), ("properties", 49), ("required", 52)],
 PyObj.odict [("name", 40), ("description", 41), ("parameters", 53)],
 PyObj.odict [("type", 39), ("function", 54)],
 PyObj.ostr "function",
 PyObj.ostr "generate_exercise",
 PyObj.ostr "Generate a single question for the students based on course literature",
 PyObj.ostr "object",
 PyObj.ostr "string",
 PyObj.ostr
   "A short message describing the desired question or exercise and the topic it should be about. Request just one question.",
 PyObj.odict [("type", 60), ("description", 61)],
 PyObj.ostr "integer",
 PyObj.ostr "The class id of the course the question should be based on. Available class IDs: \x7bavailable_class_ids\x7d",
 PyObj.odict [("type", 63), ("description", 64)],
 PyObj.ostr "string",
 PyObj.ostr "The subject of the course the question should be based on.",
 PyObj.odict [("type", 66), ("description", 67)],
 PyObj.odict [("query", 62), ("class_id", 65), ("subject", 68)],
 PyObj.ostr "query",
 PyObj.ostr "class_id",
 PyObj.ostr "subject",
 PyObj.olist [70, 71, 72],
 PyObj.odict [("type", 59), ("properties", 69), ("required", 73)],
 PyObj.odict [("name", 57), ("description", 58), ("parameters", 74)],
 PyObj.odict [("type", 56), ("function", 75)],
 PyObj.olist [55, 76]]

/-- The heap after the registry loop has processed the first (copied) tool,
`search_knowledge`: its `class_id` dict (cell 48) now points at the fresh
description cell 78 and enum cell 79. -/
def registryStep1Heap (m : List (String × Int)) : Heap :=
[PyObj.ostr "function",
 PyObj.ostr "search_knowledge",
 PyObj.ostr "Get relevant information from the knowledge base.",
 PyObj.ostr "object",
 PyObj.ostr "string",
 PyObj.ostr "A message describing the information you are looking for.",
 PyObj.odict [("type", 4), ("description", 5)],
 PyObj.ostr "integer",
 PyObj.ostr "The class id of the course the question should be based on. Available class IDs: \x7bavailable_class_ids\x7d",
 PyObj.odict [("type", 7), ("description", 8)],
 PyObj.odict [("search_phrase", 6), ("class_id", 9)],
 PyObj.ostr "search_phrase",
 PyObj.ostr "class_id",
 PyObj.olist [11, 12],
 PyObj.odict [("type", 3), ("properties", 10), ("required", 13)],
 PyObj.odict [("name", 1), ("description", 2), ("parameters", 14)],
 PyObj.odict [("type", 0), ("function", 15)],
 PyObj.ostr "function",
 PyObj.ostr "generate_exercise",
 PyObj.ostr "Generate a single question for the students based on course literature",
 PyObj.ostr "object",
 PyObj.ostr "string",
 PyObj.ostr
   "A short message describing the desired question or exercise and the topic it should be about. Request just one question.",
 PyObj.odict [("type", 21), ("description", 22)],
 PyObj.ostr "integer",
 PyObj.ostr "The class id of the course the question should be based on. Available class IDs: \x7bavailable_class_ids\x7d",
 PyObj.odict [("type", 24), ("description", 25)],
 PyObj.ostr "string",
 PyObj.ostr "The subject of the course the question should be based on.",
 PyObj.odict [("type", 27), ("description", 28)],
 PyObj.odict [("query", 23), ("class_id", 26), ("subject", 29)],
 PyObj.ostr "query",
 PyObj.ostr "class_id",
 PyObj.ostr "subject",
 PyObj.olist [31, 32, 33],
 PyObj.odict [("type", 20), ("properties", 30), ("required", 34)],
 PyObj.odict [("name", 18), ("description", 19), ("parameters", 35)],
 PyObj.odict [("type", 17), ("function", 36)],
 PyObj.olist [16, 37],
 PyObj.ostr "function",
 PyObj.ostr "search_knowledge",
 PyObj.ostr "Get relevant information from the knowledge base.",
 PyObj.ostr "object",
 PyObj.ostr "string",
 PyObj.ostr "A message describing the information you are looking for.",
 PyObj.odict [("type", 43), ("description", 44)],
 PyObj.ostr "integer",
 PyObj.ostr "The class id of the course the question should be based on. Available class IDs: \x7bavailable_class_ids\x7d",
 PyObj.odict [("type", 46), ("description", 78), ("enum", 79)],
 PyObj.odict [("search_phrase", 45), ("class_id", 48)],
 PyObj.ostr "search_phrase",
 PyObj.ostr "class_id",
 PyObj.olist [50, 51],
 PyObj.odict [("type", 42), ("properties", 49), ("required", 52)],
 PyObj.odict [("name", 40), ("description", 41), ("parameters", 53)],
 PyObj.odict [("type", 39), ("function", 54)],
 PyObj.ostr "function",
 PyObj.ostr "generate_exercise",
 PyObj.ostr "Generate a single question for the students based on course literature",
 PyObj.ostr "object",
 PyObj.ostr "string",
 PyObj.ostr
   "A short message describing the desired question or exercise and the topic it should be about. Request just one question.",
 PyObj.odict [("type", 60), ("description", 61)],
 PyObj.ostr "integer",
 PyObj.ostr "The class id of the course the question should be based on. Available class IDs: \x7bavailable_class_ids\x7d",
 PyObj.odict [("type", 63), ("description", 64)],
 PyObj.ostr "string",
 PyObj.ostr "The subject of the course the question should be based on.",
 PyObj.odict [("type", 66), ("description", 67)],
 PyObj.odict [("query", 62), ("class_id", 65), ("subject", 68)],
 PyObj.ostr "query",
 PyObj.ostr "class_id",
 PyObj.ostr "subject",
 PyObj.olist [70, 71, 72],
 PyObj.odict [("type", 59), ("properties", 69), ("required", 73)],
 PyObj.odict [("name", 57), ("description", 58), ("parameters", 74)],
 PyObj.odict [("type", 56), ("function", 75)],
 PyObj.olist [55, 76],
 descCell m,
 enumCell m]

/-- The heap after the registry loop has also processed the second (copied)
tool, `generate_exercise`: its `class_id` dict (cell 65) now points at the
fresh description cell 80 and enum cell 81. -/
def registryStep2Heap (m : List (String × Int)) : Heap :=
[PyObj.ostr "function",
 PyObj.ostr "search_knowledge",
 PyObj.ostr "Get relevant information from the knowledge base.",
 PyObj.ostr "object",
 PyObj.ostr "string",
 PyObj.ostr "A message describing the information you are looking for.",
 PyObj.odict [("type", 4), ("description", 5)],
 PyObj.ostr "integer",
 PyObj.ostr "The class id of the course the question should be based on. Available class IDs: \x7bavailable_class_ids\x7d",
 PyObj.odict [("type", 7), ("description", 8)],
 PyObj.odict [("search_phrase", 6), ("class_id", 9)],
 PyObj.ostr "search_phrase",
 PyObj.ostr "class_id",
 PyObj.olist [11, 12],
 PyObj.odict [("type", 3), ("properties", 10), ("required", 13)],
 PyObj.odict [("name", 1), ("description", 2), ("parameters", 14)],
 PyObj.odict [("type", 0), ("function", 15)],
 PyObj.ostr "function",
 PyObj.ostr "generate_exercise",
 PyObj.ostr "Generate a single question for the students based on course literature",
 PyObj.ostr "object",
 PyObj.ostr "string",
 PyObj.ostr
   "A short message describing the desired question or exercise and the topic it should be about. Request just one question.",
 PyObj.odict [("type", 21), ("description", 22)],
 PyObj.ostr "integer",
 PyObj.ostr "The class id of the course the question should be based on. Available class IDs: \x7bavailable_class_ids\x7d",
 PyObj.odict [("type", 24), ("description", 25)],
 PyObj.ostr "string",
 PyObj.ostr "The subject of the course the question should be based on.",
 PyObj.odict [("type", 27), ("description", 28)],
 PyObj.odict [("query", 23), ("class_id", 26), ("subject", 29)],
 PyObj.ostr "query",
 PyObj.ostr "class_id",
 PyObj.ostr "subject",
 PyObj.olist [31, 32, 33],
 PyObj.odict [("type", 20), ("properties", 30), ("required", 34)],
 PyObj.odict [("name", 18), ("description", 19), ("parameters", 35)],
 PyObj.odict [("type", 17), ("function", 36)],
 PyObj.olist [16, 37],
 PyObj.ostr "function",
 PyObj.ostr "search_knowledge",
 PyObj.ostr "Get relevant information from the knowledge base.",
 PyObj.ostr "object",
 PyObj.ostr "string",
 PyObj.ostr "A message describing the information you are looking for.",
 PyObj.odict [("type", 43), ("description", 44)],
 PyObj.ostr "integer",
 PyObj.ostr "The class id of the course the question should be based on. Available class IDs: \x7bavailable_class_ids\x7d",
 PyObj.odict [("type", 46), ("description", 78), ("enum", 79)],
 PyObj.odict [("search_phrase", 45), ("class_id", 48)],
 PyObj.ostr "search_phrase",
 PyObj.ostr "class_id",
 PyObj.olist [50, 51],
 PyObj.odict [("type", 42), ("properties", 49), ("required", 52)],
 PyObj.odict [("name", 40), ("description", 41), ("parameters", 53)],
 PyObj.odict [("type", 39), ("function", 54)],
 PyObj.ostr "function",
 PyObj.ostr "generate_exercise",
 PyObj.ostr "Generate a single question for the students based on course literature",
 PyObj.ostr "object",
 PyObj.ostr "string",
 PyObj.ostr
   "A short message describing the desired question or exercise and the topic it should be about. Request just one question.",
 PyObj.odict [("type", 60), ("description", 61)],
 PyObj.ostr "integer",
 PyObj.ostr "The class id of the course the question should be based on. Available class IDs: \x7bavailable_class_ids\x7d",
 PyObj.odict [("type", 63), ("description", 80), ("enum", 81)],
 PyObj.ostr "string",
 PyObj.ostr "The subject of the course the question should be based on.",
 PyObj.odict [("type", 66), ("description", 67)],
 PyObj.odict [("query", 62), ("class_id", 65), ("subject", 68)],
 PyObj.ostr "query",
 PyObj.ostr "class_id",
 PyObj.ostr "subject",
 PyObj.olist [70, 71, 72],
 PyObj.odict [("type", 59), ("properties", 69), ("required", 73)],
 PyObj.odict [("name", 57), ("description", 58), ("parameters", 74)],
 PyObj.odict [("type", 56), ("function", 75)],
 PyObj.olist [55, 76],
 descCell m,
 enumCell m,
 descCell m,
 enumCell m]

set_option maxRecDepth 100000 in
/-- Evaluating the `copy.deepcopy(tools_metadata)` call on the module
state. -/
lemma registry_deepcopy_eval :
    deepcopy 100 registryHeap.1 registryHeap.2 = (copiedRegistryHeap, 77) := by
  decide

/-- The copied tool list holds the two copied tool dicts. -/
lemma registry_toolAddrs :
    heapGet copiedRegistryHeap 77 = some (PyObj.olist [55, 76]) := rfl

/-- First loop iteration, on the copied `search_knowledge` tool. -/
lemma registry_step1 (m : List (String × Int)) :
    gtmToolStep m copiedRegistryHeap 55 = registryStep1Heap m := rfl

/-- Second loop iteration, on the copied `generate_exercise` tool. -/
lemma registry_step2 (m : List (String × Int)) :
    gtmToolStep m (registryStep1Heap m) 76 = registryStep2Heap m := rfl

/-- The full `get_tools_metadata` call on the registry's module state, for
an arbitrary per-user class map. -/
lemma get_tools_metadata_eval (m : List (String × Int)) :
    get_tools_metadata registryHeap.1 registryHeap.2 m =
      (registryStep2Heap m, 77) := by
  unfold get_tools_metadata
  rw [registry_deepcopy_eval]
  simp only [registry_toolAddrs, gtmLoop, registry_step1, registry_step2]

/-! ### Concrete fixtures used by the claim theorems and witnesses -/

def exampleUser : User :=
  { id := some 1, name := "Alice", formatted_class_info := "Geography Form 2"
    class_name_to_id_map := [("Geography Form 2", 4)] }

def exampleUserNoId : User :=
  { id := none, name := "Bob", formatted_class_info := "Physics Form 1"
    class_name_to_id_map := [("Physics Form 1", 7)] }

def userMsg : Message :=
  { user_id := some 1, role := .user, content := some "explain photosynthesis" }

def prevMsg : Message :=
  { user_id := some 1, role := .assistant, content := some "hello" }

def okToolEnv : ToolEnv :=
  { search_knowledge := fun _ _ => .ok "search results"
    generate_exercise := fun _ _ _ => .ok "an exercise" }

def firstPlain : List ApiDict → LlmResponse := fun _ =>
  { content := some "Photosynthesis converts light into energy."
    tool_calls := [] }

def secondOracle : List ApiDict → Option String := fun _ => some "final answer"

/-! ### The claims -/

/-- C1: in a turn whose first LLM call returns plain content and no tool
calls, `generate_response` persists exactly one assistant `Message`
carrying that content — but the NO_TOOLS branch of the source ends without
a `return` statement, so the function's result is `None`, not the persisted
message.  The claim's FINALIZE contract ("return it as the turn's result")
is violated; the source's own comment ("Create and return a Message object
for non-tool responses") confirms the intent.  This theorem evaluates the
embedded code on the failing input (scenario 1: no history, plain
content). -/
theorem C1_no_tools_persists_one_message_but_returns_null :
    (generate_response okToolEnv firstPlain secondOracle [] exampleUser
      userMsg).1 = .ok none ∧
    (generate_response okToolEnv firstPlain secondOracle [] exampleUser
      userMsg).2.filterMap persistedMessage =
      [finalAssistantMessage 1 "Photosynthesis converts light into energy."] ∧
    finalAssistantMessage 1 "Photosynthesis converts light into energy." =
      { user_id := some 1, role := .assistant
        content := some "Photosynthesis converts light into energy." } :=
  ⟨rfl, rfl, rfl⟩

/-- C9: when the user record has no id, `generate_response` returns `None`
immediately: no history read, no LLM call, no persisted message — the
event trace is empty and the result is a null result, not an error. -/
theorem C9_null_user_id_is_noop (env : ToolEnv)
    (first : List ApiDict → LlmResponse) (second : List ApiDict → Option String)
    (stored : List Message) (u : User) (message : Message)
    (h : u.id = none) :
    generate_response env first second stored u message = (.ok none, []) := by
  unfold generate_response
  rw [h]

theorem C9_witness :
    generate_response okToolEnv firstPlain secondOracle [] exampleUserNoId
      userMsg = (.ok none, []) :=
  C9_null_user_id_is_noop okToolEnv firstPlain secondOracle [] exampleUserNoId
    userMsg rfl

/-- C10: a user with zero persisted messages gets `None` (not `[]`) from
`get_user_message_history`, and the Conversation Formatter given that
`None` history skips both the duplicate-exclusion slice and the
history-length consistency check: for any non-empty batch of new messages
it returns the system message followed by the new messages, without
raising. -/
theorem C10_empty_history_none_and_formatter_skips (limit : Nat)
    (N : List Message) (u : User) (hN : N ≠ []) :
    get_user_message_history [] limit = none ∧
    _format_messages N (get_user_message_history [] limit) u =
      .ok (systemApiMsg u :: N.map Message.to_api_format) := by
  have h : get_user_message_history [] limit = none := by
    simp [get_user_message_history]
  exact ⟨h, by rw [h]; rfl⟩

theorem C10_witness :
    get_user_message_history [] 10 = none ∧
    _format_messages [userMsg] (get_user_message_history [] 10) exampleUser =
      .ok (systemApiMsg exampleUser :: [userMsg].map Message.to_api_format) :=
  C10_empty_history_none_and_formatter_skips 10 [userMsg] exampleUser
    (List.cons_ne_nil _ _)

/-- C4 counterexample: with an *empty* (but present) history list and one
new message, `len(H) = 0 < 1 = len(N)`, yet `_format_messages` does not
raise the consistency error — Python's `if database_messages:` is falsy for
an empty list, so the whole check is skipped and the formatter returns the
system message followed by the new message. -/
theorem C4_counterexample_empty_history_does_not_fail :
    ([] : List Message).length < [userMsg].length ∧
    _format_messages [userMsg] (some []) exampleUser =
      .ok [systemApiMsg exampleUser, userMsg.to_api_format] :=
  ⟨by decide, rfl⟩

/-- C4 (amended): for a *non-empty* history H, the Conversation Formatter
outputs exactly one system message followed by H with its last `len(N)`
entries removed, followed by N, in order, when `len(H) >= len(N)`; and
fails with the consistency error when `len(H) < len(N)`.  When the history
is empty (`[]`) or absent (`None`) — both falsy in Python — the
deduplication slice and the length check are skipped entirely and the
output is the system message followed by N. -/
theorem C4_formatter_dedup_and_consistency (H N : List Message) (u : User) :
    (H ≠ [] → N.length ≤ H.length →
      _format_messages N (some H) u =
        .ok (systemApiMsg u ::
          ((H.take (H.length - N.length)).map Message.to_api_format ++
            N.map Message.to_api_format))) ∧
    (H ≠ [] → H.length < N.length →
      _format_messages N (some H) u =
        .error (unusualCountMsg N.length H.length)) ∧
    _format_messages N (some []) u =
      .ok (systemApiMsg u :: N.map Message.to_api_format) ∧
    _format_messages N none u =
      .ok (systemApiMsg u :: N.map Message.to_api_format) := by
  refine ⟨?_, ?_, rfl, rfl⟩
  · intro hne hlen
    have hE : H.isEmpty = false := by
      cases H with
      | nil => exact absurd rfl hne
      | cons a t => rfl
    have hlt : ¬ H.length < N.length := by omega
    cases N with
    | nil =>
      simp only [_format_messages, hE, Bool.false_eq_true, if_false,
        List.length_nil, hlt, if_neg hlt, gt_iff_lt, lt_irrefl, if_false,
        List.map_nil, List.map_append, List.append_nil, Nat.sub_zero,
        List.take_length]
      rfl
    | cons n N' =>
      simp only [_format_messages, hE, Bool.false_eq_true, if_false,
        if_neg hlt]
      have hpos : (n :: N').length > 0 := by simp
      rw [if_pos hpos]
      rfl
  · intro hne hlen
    have hE : H.isEmpty = false := by
      cases H with
      | nil => exact absurd rfl hne
      | cons a t => rfl
    simp only [_format_messages, hE, Bool.false_eq_true, if_false,
      if_pos hlen]

/-- C6: `execute_tool_call` never raises — the embedding is a total
function into observation strings, mirroring the source's
`try/except Exception` around the whole dispatch.  Concretely: a missing or
wrongly-typed required argument (falsy or of the wrong `isinstance` type)
yields the corresponding validation error string; a tool name other than
the two known ones yields exactly `"Unknown tool: <name>"`; and an
exception `e` raised inside a tool body is converted into
`"Error executing <name>: <str(e)>"` — in every case the turn continues
with a string observation. -/
theorem C6_executor_never_raises (env : ToolEnv) (name : String)
    (args : Args) :
    (name ≠ "search_knowledge" → name ≠ "generate_exercise" →
      execute_tool_call env name args = "Unknown tool: " ++ name) ∧
    ((pyGet args "search_phrase").truthy = false ∨
        (pyGet args "search_phrase").isStr = false →
      execute_tool_call env "search_knowledge" args =
        "Error: search_phrase is required and must be a string") ∧
    ((pyGet args "search_phrase").truthy = true →
      (pyGet args "search_phrase").isStr = true →
      (pyGet args "class_id").truthy = false ∨
        (pyGet args "class_id").isInt = false →
      execute_tool_call env "search_knowledge" args =
        "Error: class_id is required and must be an integer") ∧
    ((pyGet args "query").truthy = false ∨
        (pyGet args "query").isStr = false →
      execute_tool_call env "generate_exercise" args =
        "Error: query is required and must be a string") ∧
    ((pyGet args "query").truthy = true →
      (pyGet args "query").isStr = true →
      (pyGet args "class_id").truthy = false ∨
        (pyGet args "class_id").isInt = false →
      execute_tool_call env "generate_exercise" args =
        "Error: class_id is required and must be an integer") ∧
    ((pyGet args "query").truthy = true →
      (pyGet args "query").isStr = true →
      (pyGet args "class_id").truthy = true →
      (pyGet args "class_id").isInt = true →
      (pyGet args "subject").truthy = false ∨
        (pyGet args "subject").isStr = false →
      execute_tool_call env "generate_exercise" args =
        "Error: subject is required and must be a string") ∧
    (∀ e, (pyGet args "search_phrase").truthy = true →
      (pyGet args "search_phrase").isStr = true →
      (pyGet args "class_id").truthy = true →
      (pyGet args "class_id").isInt = true →
      env.search_knowledge (pyGet args "search_phrase").asStr
        (pyGet args "class_id").asInt = .error e →
      execute_tool_call env "search_knowledge" args =
        "Error executing search_knowledge: " ++ e) ∧
    (∀ e, (pyGet args "query").truthy = true →
      (pyGet args "query").isStr = true →
      (pyGet args "class_id").truthy = true →
      (pyGet args "class_id").isInt = true →
      (pyGet args "subject").truthy = true →
      (pyGet args "subject").isStr = true →
      env.generate_exercise (pyGet args "query").asStr
        (pyGet args "class_id").asInt (pyGet args "subject").asStr =
        .error e →
      execute_tool_call env "generate_exercise" args =
        "Error executing generate_exercise: " ++ e) := by
  refine ⟨?_, ?_, ?_, ?_, ?_, ?_, ?_, ?_⟩
  · intro h1 h2
    have b1 : (name == "search_knowledge") = false := by
      simpa using h1
    have b2 : (name == "generate_exercise") = false := by
      simpa using h2
    simp only [execute_tool_call, b1, b2, Bool.false_eq_true, if_false]
  · intro h
    rcases h with h | h <;>
      simp only [execute_tool_call, h, Bool.not_false, Bool.true_or,
        Bool.or_true, if_true, beq_self_eq_true, if_pos rfl]
  · intro h1 h2 h
    rcases h with h | h <;>
      simp only [execute_tool_call, h1, h2, h, Bool.not_true, Bool.not_false,
        Bool.false_or, Bool.or_false, Bool.true_or, Bool.or_true,
        Bool.false_eq_true, if_false, if_true, beq_self_eq_true, if_pos rfl]
  · intro h
    rcases h with h | h <;>
      simp only [execute_tool_call, h, Bool.not_false, Bool.true_or,
        Bool.or_true, if_true, String.reduceBEq, Bool.false_eq_true, if_false,
        beq_self_eq_true, if_pos rfl]
  · intro h1 h2 h
    rcases h with h | h <;>
      simp only [execute_tool_call, h1, h2, h, Bool.not_true, Bool.not_false,
        Bool.false_or, Bool.or_false, Bool.true_or, Bool.or_true,
        Bool.false_eq_true, if_false, if_true, String.reduceBEq,
        beq_self_eq_true, if_pos rfl]
  · intro h1 h2 h3 h4 h
    rcases h with h | h <;>
      simp only [execute_tool_call, h1, h2, h3, h4, h, Bool.not_true,
        Bool.not_false, Bool.false_or, Bool.or_false, Bool.true_or,
        Bool.or_true, Bool.false_eq_true, if_false, if_true,
        String.reduceBEq, beq_self_eq_true, if_pos rfl]
  · intro e h1 h2 h3 h4 herr
    simp only [execute_tool_call, h1, h2, h3, h4, herr, Bool.not_true,
      Bool.false_or, Bool.or_false, Bool.false_eq_true, if_false,
      beq_self_eq_true, if_pos rfl, if_true]
  · intro e h1 h2 h3 h4 h5 h6 herr
    simp only [execute_tool_call, h1, h2, h3, h4, h5, h6, herr, Bool.not_true,
      Bool.false_or, Bool.or_false, Bool.false_eq_true, if_false,
      String.reduceBEq, if_true]

theorem C6_witness :
    execute_tool_call okToolEnv "fetch_weather" [] =
      "Unknown tool: fetch_weather" :=
  (C6_executor_never_raises okToolEnv "fetch_weather" []).1 (by decide)
    (by decide)

/-- A knowledge-store state in which the queried class has zero associated
resources (`get_class_resources` returns `None`,
app/database/db.py lines 271-272). -/
def noResourceEnv : GenExEnv :=
  { get_class_resources := fun _ => none
    vector_search := fun _ _ _ => []
    completion := fun _ _ => "never issued" }

def skOracle : String → Int → Except String String := fun _ _ => .ok "ctx"

def genExCall : ToolCallReq :=
  { id := "call_1"
    name := "generate_exercise"
    args := [("query", .vstr "one exercise on photosynthesis"),
             ("class_id", .vint 4), ("subject", .vstr "Geography")] }

def firstGenEx : List ApiDict → LlmResponse := fun _ =>
  { content := none, tool_calls := [genExCall] }

/-- C3 counterexample: when `generate_exercise` is invoked (via a tool
call) for a class with zero resources, the `assert resource_ids` failure is
*not* fatal to the turn: `execute_tool_call`'s `except Exception` catches
the `AssertionError` (whose `str` is empty) and turns it into the
observation string `"Error executing generate_exercise: "`, which is
persisted as the tool message; the turn then proceeds through the second
LLM call and returns a final assistant message.  This contradicts the
claim's "fatal to the whole turn (not converted into a tool-observation
string)". -/
theorem C3_counterexample_assertion_becomes_observation :
    (generate_response (toolEnvOf noResourceEnv skOracle) firstGenEx
      secondOracle [] exampleUser userMsg).1 =
      .ok (some (finalAssistantMessage 1 "final answer")) ∧
    ((generate_response (toolEnvOf noResourceEnv skOracle) firstGenEx
      secondOracle [] exampleUser userMsg).2.filterMap
        persistedMessage).map Message.content =
      [none, some "Error executing generate_exercise: ",
       some "final answer"] := by
  constructor
  · rfl
  · decide

/-- C3 (amended): for a class with zero associated resources,
`generate_exercise` itself fails with an assertion error before issuing any
completion call (its event trace stops at the resource lookup), and no
exercise text is returned — but at the executor boundary the
`AssertionError` is caught like any other exception and converted into the
error observation string `"Error executing generate_exercise: "`
(`str` of a bare `AssertionError` is empty), so the turn continues rather
than aborting. -/
theorem C3_assert_before_completion_caught_at_executor (genv : GenExEnv)
    (sk : String → Int → Except String String) (q : String) (c : Int)
    (s : String) (hres : genv.get_class_resources c = none) (hq : q ≠ "")
    (hc : c ≠ 0) (hs : s ≠ "") :
    generate_exercise genv q c s = (.error "", [GEEvent.getResources c]) ∧
    execute_tool_call (toolEnvOf genv sk) "generate_exercise"
        [("query", .vstr q), ("class_id", .vint c), ("subject", .vstr s)] =
      "Error executing generate_exercise: " := by
  have hgen : generate_exercise genv q c s =
      (.error "", [GEEvent.getResources c]) := by
    simp only [generate_exercise, hres, Option.getD, List.isEmpty_nil,
      if_true]
  refine ⟨hgen, ?_⟩
  have hbq : (q == "") = false := by simpa using hq
  have hbc : (c == 0) = false := by simpa using hc
  have hbs : (s == "") = false := by simpa using hs
  simp only [execute_tool_call, String.reduceBEq, Bool.false_eq_true,
    if_false, pyGet, List.find?, beq_self_eq_true, PyVal.truthy, PyVal.isStr,
    hbq, hbc, hbs, Bool.not_false, Bool.not_true, Bool.false_or,
    Bool.or_false, PyVal.isInt, toolEnvOf, PyVal.asStr, PyVal.asInt, hgen]
  rfl

theorem C3_amended_witness :
    generate_exercise noResourceEnv "one exercise on photosynthesis" 4
        "Geography" = (.error "", [GEEvent.getResources 4]) ∧
    execute_tool_call (toolEnvOf noResourceEnv skOracle) "generate_exercise"
        [("query", .vstr "one exercise on photosynthesis"),
         ("class_id", .vint 4), ("subject", .vstr "Geography")] =
      "Error executing generate_exercise: " :=
  C3_assert_before_completion_caught_at_executor noResourceEnv skOracle
    "one exercise on photosynthesis" 4 "Geography" rfl (by decide)
    (by decide) (by decide)

/-- A retrieved text chunk with full provenance. -/
def exampleChunk : Chunk :=
  { chunk_type := .text, resource_id := 9
    top_level_section_title := some "Photosynthesis"
    top_level_section_index := some 3
    content := "Plants use sunlight to make food." }

/-- A knowledge-store state whose vector search returns one text chunk. -/
def oneChunkEnv : GenExEnv :=
  { get_class_resources := fun _ => some [9]
    vector_search := fun _ _ _ => [exampleChunk]
    completion := fun _ _ => "generated exercise" }

/-- C2: the claim fails on the code.  `generate_exercise` calls
`_format_context(retrieved_content)` with `retrieved_exercise = None`, and
`_format_context` renders chunk headings only inside
`if retrieved_exercise:` (app/tools/generate_exercise.py line 98) — so for
a *non-empty* retrieved chunk list the assembled context string is empty:
no heading line, no chunk content.  The spec's formatting rule (each chunk
rendered as heading + content) matches the dead loop body, so the guard on
the wrong variable is the slip.  This theorem evaluates the embedded code
at a failing input: one retrieved chunk, context `""`, and the completion
prompt built from the empty context. -/
theorem C2_context_empty_despite_retrieved_chunks :
    _format_context [exampleChunk] none none = "" ∧
    (generate_exercise oneChunkEnv "make an exercise" 4 "Geography").2 =
      [GEEvent.getResources 4, GEEvent.search "make an exercise" 7 [9],
       GEEvent.completionCall (exercise_generator_prompt_formatted "Geography")
         (exercise_user_prompt_formatted "make an exercise" "")] :=
  ⟨rfl, rfl⟩

/-- C5: whenever the first LLM call returns a non-empty tool-call list, the
turn's event trace is exactly: the history read, the first call, the
persist of the single assistant message carrying `content = None` and the
serialized tool-call list (`assistantToolsMessage`) — *before* any tool
executes — then, for each tool call in the order the LLM emitted them, its
execution immediately followed by the persist of its tool-role result
message, and finally the second LLM call and the persist of the final
assistant message.  The API list handed to the second call
(`apiAfterTools`) is the formatted list, the assistant tool-call entry, and
one tool-result entry per call in that same order — a later call's result
never precedes an earlier one's anywhere in the trace or the list. -/
theorem C5_tool_branch_trace (env : ToolEnv)
    (first : List ApiDict → LlmResponse)
    (second : List ApiDict → Option String) (stored : List Message)
    (u : User) (message : Message) (uid : Int) (api : List ApiDict)
    (hu : u.id = some uid)
    (hfmt : _format_messages [message] (get_user_message_history stored 10) u
      = .ok api)
    (htc : (first api).tool_calls ≠ []) :
    generate_response env first second stored u message =
      (.ok (some (finalAssistantMessage uid
          ((second (apiAfterTools env api (first api).tool_calls)).getD ""))),
       [Event.fetchHistory uid, Event.firstCall api,
        Event.persist (assistantToolsMessage uid (first api).tool_calls)] ++
       ((first api).tool_calls.map (fun tc =>
          [Event.execTool tc.name tc.args,
           Event.persist (toolResultMessage env uid tc)])).flatten ++
       [Event.secondCall (apiAfterTools env api (first api).tool_calls),
        Event.persist (finalAssistantMessage uid
          ((second (apiAfterTools env api (first api).tool_calls)).getD ""))]) := by
  have hE : (first api).tool_calls.isEmpty = false := by
    cases htcs : (first api).tool_calls with
    | nil => exact absurd htcs htc
    | cons a t => rfl
  simp only [generate_response, hu, hfmt, hE, Bool.false_eq_true, if_false]

def tcA : ToolCallReq :=
  { id := "call_A", name := "search_knowledge"
    args := [("search_phrase", .vstr "mitosis"), ("class_id", .vint 4)] }

def tcB : ToolCallReq :=
  { id := "call_B", name := "generate_exercise"
    args := [("query", .vstr "one question"), ("class_id", .vint 4),
             ("subject", .vstr "Biology")] }

def firstTwoTools : List ApiDict → LlmResponse := fun _ =>
  { content := none, tool_calls := [tcA, tcB] }

def apiNoHistory : List ApiDict :=
  [systemApiMsg exampleUser, userMsg.to_api_format]

theorem C5_witness_two_tools_in_order :
    generate_response okToolEnv firstTwoTools secondOracle [] exampleUser
      userMsg =
      (.ok (some (finalAssistantMessage 1
          ((secondOracle (apiAfterTools okToolEnv apiNoHistory
            [tcA, tcB])).getD ""))),
       [Event.fetchHistory 1, Event.firstCall apiNoHistory,
        Event.persist (assistantToolsMessage 1 [tcA, tcB])] ++
       ([tcA, tcB].map (fun tc =>
          [Event.execTool tc.name tc.args,
           Event.persist (toolResultMessage okToolEnv 1 tc)])).flatten ++
       [Event.secondCall (apiAfterTools okToolEnv apiNoHistory [tcA, tcB]),
        Event.persist (finalAssistantMessage 1
          ((secondOracle (apiAfterTools okToolEnv apiNoHistory
            [tcA, tcB])).getD ""))]) :=
  C5_tool_branch_trace okToolEnv firstTwoTools secondOracle [] exampleUser
    userMsg 1 apiNoHistory rfl rfl (List.cons_ne_nil _ _)

/-- C7: for every user class map `m` (the `class_name_to_id_map` that
`create_langchain_tools` serializes and hands to the registry), the tool
specifications produced by `get_tools_metadata` offer, for both
`search_knowledge` (tool 0) and `generate_exercise` (tool 1), a `class_id`
enum that is exactly the list of ids of `m`: an id is in the enum iff some
class name of the user maps to it — no id outside the user's permitted set
is offered, and every permitted id is offered. -/
theorem C7_class_id_enum_equals_user_class_ids (m : List (String × Int)) :
    toolName (get_tools_metadata registryHeap.1 registryHeap.2 m).1
      (get_tools_metadata registryHeap.1 registryHeap.2 m).2 0 =
      some "search_knowledge" ∧
    toolName (get_tools_metadata registryHeap.1 registryHeap.2 m).1
      (get_tools_metadata registryHeap.1 registryHeap.2 m).2 1 =
      some "generate_exercise" ∧
    toolClassIdEnum (get_tools_metadata registryHeap.1 registryHeap.2 m).1
      (get_tools_metadata registryHeap.1 registryHeap.2 m).2 0 =
      some (m.map (fun kv => kv.2)) ∧
    toolClassIdEnum (get_tools_metadata registryHeap.1 registryHeap.2 m).1
      (get_tools_metadata registryHeap.1 registryHeap.2 m).2 1 =
      some (m.map (fun kv => kv.2)) ∧
    (∀ i : Int, i ∈ m.map (fun kv => kv.2) ↔ ∃ cls, (cls, i) ∈ m) := by
  rw [get_tools_metadata_eval]
  refine ⟨rfl, rfl, rfl, rfl, ?_⟩
  intro i
  simp only [List.mem_map]
  constructor
  · rintro ⟨⟨k, v⟩, hm, rfl⟩
    exact ⟨k, hm⟩
  · rintro ⟨k, hm⟩
    exact ⟨(k, i), hm, rfl⟩

/-- Base facts about the registry module state, established by
computation. -/
lemma registryHeap_wf : heapWf registryHeap.1 := by
  unfold heapWf
  decide

lemma registryHeap_root_lt : registryHeap.2 < registryHeap.1.length := by
  decide

lemma registryHeap_read : readTree 100 registryHeap.1 registryHeap.2 =
    some tools_metadata := rfl

/-- C8: the shared static `tools_metadata` template is never mutated by
`get_tools_metadata`: after any number of calls, each with an arbitrary
`available_classes` (the calls thread the module heap, so each sees the
garbage of the previous ones), the value read back from the template's
address is unchanged — and it is the original `tools_metadata` literal.
The per-user description/enum substitution happens only on the deep copy
(copy-on-read). -/
theorem C8_template_unchanged_after_any_number_of_calls
    (ms : List (List (String × Int))) :
    readTree 100 (iterateGtm registryHeap.2 registryHeap.1 ms)
        registryHeap.2 =
      readTree 100 registryHeap.1 registryHeap.2 ∧
    readTree 100 registryHeap.1 registryHeap.2 = some tools_metadata :=
  ⟨(iterateGtm_preserves registryHeap.2 ms registryHeap.1 registryHeap_wf).1
      100 registryHeap.2 registryHeap_root_lt,
   registryHeap_read⟩
